import Mathlib

/-!
Shallow embedding of the response-decision and context-orchestration
pipeline of the LLM-discord bot manager, together with proofs checking
the natural-language specification against the code.

The embedding follows the current implementation files:
 * `types.ts` (data model: BotConfig with `convLength`, ConversationMessage,
   LLMResponse, LLMResult),
 * `eventHandler.ts` (the `shouldRespond` decision function with the
   bot-to-bot loop guard, and `handleMessageCreate`),
 * `responseOrchestrator.ts` (`getDisplayName`, `fetchConversationFromDiscord`,
   `ephemeralFetchConversation`, `processConversation`),
 * `llmAPI.ts` (`parseLLMResponse`, `callLLM`).

Asynchronous platform calls (Discord fetches, the HTTP POST) are modelled
as explicit oracle inputs; the module-level mutable caches are modelled by
explicit state passing.  JavaScript numbers are modelled as `Nat` (all the
quantities involved — epoch milliseconds, counters, HTTP status codes —
are non-negative integers in the source).
-/

/-! ## Data model (types.ts) -/

/-- Bot configuration, per `BotConfig` in types.ts (current variant, whose
message-history length field is `convLength`). -/
structure BotConfig where
  id : String
  discordBotToken : String
  inferUrl : String
  apiKey : Option String
  sessionHeaderName : Option String
  convLength : Nat
  respondTo : Option String
  respondAsReply : Bool
  customFields : List (String × String)
deriving Repr, DecidableEq

/-- A formatted conversation message, per `ConversationMessage` in types.ts. -/
structure ConversationMessage where
  username : String
  text : String
  timestamp : String
deriving Repr, DecidableEq

/-! ## Discord-side inputs

The discord.js `Message` and channel objects are external inputs; the
fields below are exactly the ones the embedded code reads. -/

/-- Discord message type: the source checks `MessageType.Default` and
`MessageType.Reply`; everything else is grouped as `other`. -/
inductive MsgType where
  | default
  | reply
  | other
deriving Repr, DecidableEq

/-- The slice of a discord.js `Message` read by the embedded functions. -/
structure MsgEvent where
  authorId : String
  authorIsBot : Bool
  authorUsername : String
  content : String
  embeds : List (Option String × Option String)
  createdTimestamp : Nat
  createdAtIso : String
  msgType : MsgType
  mentionUsers : List String
  mentionRoleCount : Nat
  mentionChannelCount : Nat
  mentionEveryone : Bool
deriving Repr, DecidableEq

/-- The permission bits `shouldRespond` queries via `permissionsFor`. -/
structure Perms where
  viewChannel : Bool
  sendMessages : Bool
  readMessageHistory : Bool
  sendMessagesInThreads : Bool
deriving Repr, DecidableEq

/-- The slice of a discord.js channel object read by the embedded functions.
`perms = none` models `permissionsFor` returning `null`. -/
structure ChannelInfo where
  id : String
  isDM : Bool
  isThread : Bool
  parentId : String
  topic : Option String
  perms : Option Perms
  sendable : Bool
  joined : Bool
  isSendable : Bool
  guildId : Option String
deriving Repr, DecidableEq

/-! ## Bot-to-bot loop guard state (eventHandler.ts) -/

/-- Per-channel loop-guard state, per `BotConversationChain` in
eventHandler.ts. -/
structure BotConversationChain where
  chainCount : Nat
  lastBotId : String
  lastActivity : Nat
deriving Repr, DecidableEq

/-- The module-level `botToBotChains` map, keyed by channel id. -/
abbrev ChainMap := List (String × BotConversationChain)

/-- `Map.set`: replace any binding for `k` with `v`. -/
def chainMapSet (m : ChainMap) (k : String) (v : BotConversationChain) : ChainMap :=
  (k, v) :: m.filter (fun p => p.1 != k)

/-- Specification of the loop-guard state update performed by
`shouldRespond` for a non-self bot author: load-or-init the channel entry,
reset on > 10 min idleness, increment on a distinct bot author, record the
author and time, and store the entry back.  Returns the stored entry and
the updated map. -/
def chainStep (chains : ChainMap) (channelId authorId : String) (now : Nat) :
    BotConversationChain × ChainMap :=
  let chain0 := (chains.lookup channelId).getD ⟨0, "", 0⟩
  let chain1 :=
    if now - chain0.lastActivity > 600000 then
      { chain0 with chainCount := 0, lastBotId := "" }
    else chain0
  let chain2 :=
    if chain1.lastBotId != "" && chain1.lastBotId != authorId then
      { chain1 with chainCount := chain1.chainCount + 1 }
    else chain1
  let chain3 := { chain2 with lastBotId := authorId, lastActivity := now }
  (chain3, chainMapSet chains channelId chain3)

/-! ## Response policy (eventHandler.ts `shouldRespond`) -/

/-- JavaScript `String.prototype.includes` on character lists. -/
def strIncludesAux (needle : List Char) : List Char → Bool
  | [] => needle.isEmpty
  | c :: rest => needle.isPrefixOf (c :: rest) || strIncludesAux needle rest

/-- JavaScript `hay.includes(needle)`. -/
def strIncludes (hay needle : String) : Bool :=
  strIncludesAux needle.data hay.data

/-- The tail of the decision ladder of `shouldRespond`, after the
message-type, loop-guard and permission checks: foreign-mention rejection,
thread membership, always-respond conditions, and the name trigger.
`botDisplayName` is the resolved display name of the bot (the value
`getDisplayName(botId, message.guildId)` would produce). -/
def respondPolicyTail (cfg : BotConfig) (botId botDisplayName : String)
    (msg : MsgEvent) (ch : ChannelInfo) : Bool :=
  -- Check if there are non-bot mentions; if the bot is not also mentioned, ignore
  let hasAnyMention :=
    msg.mentionEveryone || msg.mentionUsers.length > 0 ||
      msg.mentionRoleCount > 0 || msg.mentionChannelCount > 0
  let isBotMentioned := msg.mentionUsers.contains botId
  if hasAnyMention && !isBotMentioned then false
  -- If this is a thread, reply only if the bot is a member with permissions
  else if ch.isThread then ch.sendable && ch.joined
  -- Always-respond conditions
  else if cfg.respondTo == some "dynamic" || ch.isDM || isBotMentioned then true
  -- If the bot should reply to its name
  else if cfg.respondTo == some "name" &&
      strIncludes msg.content.toLower botDisplayName.toLower then true
  else false

/-- `shouldRespond` from eventHandler.ts: decides whether the bot responds
to `msg`, and updates the module-level `botToBotChains` map (returned as
the second component).  The display-name resolution performed in the name
branch is supplied as the pure input `botDisplayName`. -/
def shouldRespond (cfg : BotConfig) (botId botDisplayName : String)
    (msg : MsgEvent) (ch : ChannelInfo) (chains : ChainMap) (now : Nat) :
    Bool × ChainMap :=
  -- Only respond to standard messages
  if msg.msgType != MsgType.default && msg.msgType != MsgType.reply then
    (false, chains)
  else
    -- Protect against bot loops (the state update is `chainStep`)
    let guard : Option Bool × ChainMap :=
      if msg.authorIsBot then
        if msg.authorId == botId then (some false, chains)
        else
          let st := chainStep chains ch.id msg.authorId now
          if st.1.chainCount ≥ 3 then (some false, st.2) else (none, st.2)
      else (none, chains)
    match guard with
    | (some r, chains') => (r, chains')
    | (none, chains') =>
      -- Check channel permissions, where appropriate
      if !ch.isDM then
        match ch.perms with
        | none => (false, chains')
        | some p =>
          if !(p.viewChannel && p.sendMessages && p.readMessageHistory) then
            (false, chains')
          else (respondPolicyTail cfg botId botDisplayName msg ch, chains')
      else (respondPolicyTail cfg botId botDisplayName msg ch, chains')

/-! ## Concrete fixtures for trace-style theorems -/

/-- A guild text channel with full permissions and no topic. -/
def plainGuildChannel : ChannelInfo :=
  { id := "chan"
    isDM := false
    isThread := false
    parentId := ""
    topic := none
    perms := some ⟨true, true, true, true⟩
    sendable := true
    joined := false
    isSendable := true
    guildId := some "guild" }

/-- A bot-authored plain message from `authorId`. -/
def botMsg (authorId : String) : MsgEvent :=
  { authorId := authorId
    authorIsBot := true
    authorUsername := authorId
    content := "ping"
    embeds := []
    createdTimestamp := 0
    createdAtIso := "t"
    msgType := MsgType.default
    mentionUsers := []
    mentionRoleCount := 0
    mentionChannelCount := 0
    mentionEveryone := false }

/-- A bot configured to respond dynamically (responds unless suppressed). -/
def dynamicCfg : BotConfig :=
  { id := "1"
    discordBotToken := "tok"
    inferUrl := "http://x"
    apiKey := none
    sessionHeaderName := none
    convLength := 5
    respondTo := some "dynamic"
    respondAsReply := false
    customFields := [] }

/-- Run `shouldRespond` over a sequence of timed messages in one channel,
threading the chain map, and collect the decisions. -/
def shouldRespondTrace (cfg : BotConfig) (botId name : String) (ch : ChannelInfo) :
    ChainMap → List (MsgEvent × Nat) → List Bool
  | _, [] => []
  | chains, (m, t) :: rest =>
    (shouldRespond cfg botId name m ch chains t).1 ::
      shouldRespondTrace cfg botId name ch (shouldRespond cfg botId name m ch chains t).2 rest

/-- Claim C5: in the trace bot A, bot B, bot A, bot B, bot A posting in the
same channel with all gaps inside the 10-minute idle window, starting from
an empty chain map, the loop guard suppresses the response to the 5th
message (its chain count, 4, is at or past the threshold of 3); the first
three messages are answered, showing the suppression is due to the guard. -/
theorem c5_loop_guard_suppresses_fifth :
    shouldRespondTrace dynamicCfg "me" "Bot" plainGuildChannel []
        [(botMsg "A", 1000), (botMsg "B", 2000), (botMsg "A", 3000),
          (botMsg "B", 4000), (botMsg "A", 5000)] =
      [true, true, true, false, false] := by
  decide

/-- A human-authored plain message with no mentions. -/
def humanMsg : MsgEvent :=
  { authorId := "user1"
    authorIsBot := false
    authorUsername := "user1"
    content := "hello there"
    embeds := []
    createdTimestamp := 0
    createdAtIso := "t"
    msgType := MsgType.default
    mentionUsers := []
    mentionRoleCount := 0
    mentionChannelCount := 0
    mentionEveryone := false }

/-- Claim C4 counterexample: with the channel's chain entry at
chainCount = 2 (lastBotId "B"), a human-authored message leaves the entry
exactly as it was — the chain count does not return to zero — and a
following message from bot "A" is suppressed (count reaches 3), so a human
message between two bot messages does not reset the bot-to-bot chain. -/
theorem c4_counterexample_human_does_not_clear_chain :
    let pre : ChainMap := [("chan", ⟨2, "B", 900⟩)]
    let r := shouldRespond dynamicCfg "me" "Bot" humanMsg plainGuildChannel pre 1000
    let r2 := shouldRespond dynamicCfg "me" "Bot" (botMsg "A") plainGuildChannel r.2 1500
    r.2.lookup "chan" = some ⟨2, "B", 900⟩ ∧
      (r.2.lookup "chan").map BotConversationChain.chainCount ≠ some 0 ∧
      r2.1 = false := by
  decide

/-- Claim C4 (amended): for every incoming message whose author is not a
bot, `shouldRespond` leaves the chain map unchanged (it does not clear the
channel's entry), and its decision is independent of the chain state, so
loop suppression is never triggered for that message. -/
theorem c4_human_message_chain_untouched
    (cfg : BotConfig) (botId name : String) (msg : MsgEvent) (ch : ChannelInfo)
    (chains chains' : ChainMap) (now : Nat)
    (h : msg.authorIsBot = false) :
    (shouldRespond cfg botId name msg ch chains now).2 = chains ∧
      (shouldRespond cfg botId name msg ch chains now).1 =
        (shouldRespond cfg botId name msg ch chains' now).1 := by
  simp only [shouldRespond, h]
  split
  · simp
  · by_cases hdm : ch.isDM = false
    · cases hp : ch.perms <;> simp [hdm, hp] <;> split <;> simp_all
    · simp [hdm]

/-- Witness for `c4_human_message_chain_untouched` at a concrete human
message and two distinct chain states. -/
theorem c4_human_message_chain_untouched_witness :
    humanMsg.authorIsBot = false ∧
      ((shouldRespond dynamicCfg "me" "Bot" humanMsg plainGuildChannel
          [("chan", ⟨2, "B", 900⟩)] 1000).2 = [("chan", ⟨2, "B", 900⟩)] ∧
        (shouldRespond dynamicCfg "me" "Bot" humanMsg plainGuildChannel
            [("chan", ⟨2, "B", 900⟩)] 1000).1 =
          (shouldRespond dynamicCfg "me" "Bot" humanMsg plainGuildChannel
              [] 1000).1) :=
  ⟨by decide,
    c4_human_message_chain_untouched dynamicCfg "me" "Bot" humanMsg
      plainGuildChannel [("chan", ⟨2, "B", 900⟩)] [] 1000 (by decide)⟩

/-- Under `respondTo` unset, no mentions of any kind, and a channel that is
neither a DM nor a thread, the tail of the decision ladder rejects. -/
theorem respondPolicyTail_rejects
    (cfg : BotConfig) (botId name : String) (msg : MsgEvent) (ch : ChannelInfo)
    (hrt : cfg.respondTo = none)
    (hu : msg.mentionUsers = []) (he : msg.mentionEveryone = false)
    (hr : msg.mentionRoleCount = 0) (hc : msg.mentionChannelCount = 0)
    (hdm : ch.isDM = false) (hth : ch.isThread = false) :
    respondPolicyTail cfg botId name msg ch = false := by
  simp [respondPolicyTail, hrt, hu, he, hr, hc, hdm, hth]

/-- Claim C8: for every message with `respondTo` unset, no mention of any
kind, and a channel that is neither a DM nor a thread, `shouldRespond`
decides not to respond — for every message content and every bot display
name, in particular when the display name appears in the text (the
name-substring trigger fires only when `respondTo == "name"`). -/
theorem c8_no_response_without_name_setting
    (cfg : BotConfig) (botId name : String) (msg : MsgEvent) (ch : ChannelInfo)
    (chains : ChainMap) (now : Nat)
    (hrt : cfg.respondTo = none)
    (hu : msg.mentionUsers = []) (he : msg.mentionEveryone = false)
    (hr : msg.mentionRoleCount = 0) (hc : msg.mentionChannelCount = 0)
    (hdm : ch.isDM = false) (hth : ch.isThread = false) :
    (shouldRespond cfg botId name msg ch chains now).1 = false := by
  have htail := respondPolicyTail_rejects cfg botId name msg ch hrt hu he hr hc hdm hth
  simp only [shouldRespond]
  split
  · rfl
  · by_cases hb : msg.authorIsBot
    · by_cases hself : (msg.authorId == botId) = true
      · simp [hb, hself]
      · by_cases h3 : (chainStep chains ch.id msg.authorId now).1.chainCount ≥ 3
        · simp [hb, hself, h3]
        · cases hp : ch.perms <;> simp [hb, hself, h3, hdm, hp, htail] <;>
            split <;> simp_all [htail]
    · cases hp : ch.perms <;> simp [hb, hdm, hp, htail] <;> split <;> simp_all [htail]

/-- Looking up the channel just stored by `chainStep` returns the stored
entry, whose author and activity fields are the new values. -/
theorem chainStep_lookup (chains : ChainMap) (cid aid : String) (now : Nat) :
    ((chainStep chains cid aid now).2.lookup cid = some (chainStep chains cid aid now).1) ∧
      (chainStep chains cid aid now).1.lastBotId = aid ∧
      (chainStep chains cid aid now).1.lastActivity = now := by
  refine ⟨?_, ?_, ?_⟩ <;> simp [chainStep, chainMapSet, List.lookup]

/-- Claim C10: for every bot-authored, non-self standard message,
`shouldRespond` replaces the channel's chain entry with the `chainStep`
update — irrespective of the configuration, permissions, mention sets and
channel kind that drive the eventual decision — so the chain state
advances even for events the bot does not respond to, and the stored
entry records the author and timestamp of this event. -/
theorem c10_guard_state_advances_before_checks
    (cfg : BotConfig) (botId name : String) (msg : MsgEvent) (ch : ChannelInfo)
    (chains : ChainMap) (now : Nat)
    (hb : msg.authorIsBot = true) (hs : (msg.authorId == botId) = false)
    (ht : msg.msgType = MsgType.default ∨ msg.msgType = MsgType.reply) :
    (shouldRespond cfg botId name msg ch chains now).2 =
        (chainStep chains ch.id msg.authorId now).2 ∧
      ∃ c, (shouldRespond cfg botId name msg ch chains now).2.lookup ch.id = some c ∧
        c.lastBotId = msg.authorId ∧ c.lastActivity = now := by
  have htype : (msg.msgType != MsgType.default && msg.msgType != MsgType.reply) = false := by
    rcases ht with h | h <;> simp [h]
  have hmain : (shouldRespond cfg botId name msg ch chains now).2 =
      (chainStep chains ch.id msg.authorId now).2 := by
    simp only [shouldRespond, htype, hb, hs]
    by_cases h3 : (chainStep chains ch.id msg.authorId now).1.chainCount ≥ 3
    · simp [h3]
    · cases hp : ch.perms <;> by_cases hdm : ch.isDM = false <;>
        simp [h3, hp, hdm] <;> split <;> simp_all
  refine ⟨hmain, (chainStep chains ch.id msg.authorId now).1, ?_, ?_, ?_⟩
  · rw [hmain]; exact (chainStep_lookup chains ch.id msg.authorId now).1
  · exact (chainStep_lookup chains ch.id msg.authorId now).2.1
  · exact (chainStep_lookup chains ch.id msg.authorId now).2.2

/-- Witness for `c10_guard_state_advances_before_checks` at a concrete
bot-authored message the bot does not respond to (`respondTo` unset, no
mention): the chain entry is still replaced. -/
theorem c10_guard_state_advances_witness :
    (botMsg "A").authorIsBot = true ∧ (((botMsg "A").authorId == "me") = false) ∧
      ((botMsg "A").msgType = MsgType.default ∨ (botMsg "A").msgType = MsgType.reply) ∧
      ((shouldRespond dynamicCfg "me" "Bot" (botMsg "A") plainGuildChannel [] 77).2 =
          (chainStep [] "chan" "A" 77).2 ∧
        ∃ c, (shouldRespond dynamicCfg "me" "Bot" (botMsg "A") plainGuildChannel [] 77).2.lookup "chan" =
            some c ∧ c.lastBotId = "A" ∧ c.lastActivity = 77) :=
  ⟨by decide, by decide, by decide,
    c10_guard_state_advances_before_checks dynamicCfg "me" "Bot" (botMsg "A")
      plainGuildChannel [] 77 (by decide) (by decide) (by decide)⟩

/-! ## Ephemeral conversation cache (responseOrchestrator.ts) -/

/-- A conversation-cache entry, per `CacheEntry` in responseOrchestrator.ts. -/
structure CacheEntry where
  lastFetchTime : Nat
  messages : List ConversationMessage
deriving Repr, DecidableEq

/-- The module-level `channelCache` map, keyed by channel id. -/
abbrev ChannelCache := List (String × CacheEntry)

/-- `Map.set` on the conversation cache. -/
def cacheSet (m : ChannelCache) (k : String) (v : CacheEntry) : ChannelCache :=
  (k, v) :: m.filter (fun p => p.1 != k)

/-- The cache-miss path of `ephemeralFetchConversation`: store the freshly
fetched messages under the channel id, then prune entries older than the
cache duration once the map holds more than 1000 entries. -/
def cacheStoreAndPrune (cache : ChannelCache) (channelId : String)
    (messages : List ConversationMessage) (cacheDurationMs now : Nat) : ChannelCache :=
  let cache1 := cacheSet cache channelId ⟨now, messages⟩
  if cache1.length > 1000 then
    cache1.filter (fun p => !(p.2.lastFetchTime < now - cacheDurationMs))
  else cache1

/-- `ephemeralFetchConversation` from responseOrchestrator.ts, with the
upstream Discord fetch supplied as the oracle `fetched` (the value
`fetchConversationFromDiscord` would produce at this instant).  Returns
the messages served, the updated cache, and whether an upstream fetch was
performed. -/
def ephemeralFetchConversation (cache : ChannelCache) (channelId : String)
    (fetched : List ConversationMessage) (cacheDurationMs now : Nat) :
    List ConversationMessage × ChannelCache × Bool :=
  match cache.lookup channelId with
  | some cached =>
    -- Return cached data if it is fresh
    if now - cached.lastFetchTime < cacheDurationMs then (cached.messages, cache, false)
    else (fetched, cacheStoreAndPrune cache channelId fetched cacheDurationMs now, true)
  | none => (fetched, cacheStoreAndPrune cache channelId fetched cacheDurationMs now, true)

/-- The entry just stored by the miss path survives the opportunistic prune
(its age is zero) and is found by a subsequent lookup. -/
theorem cacheStoreAndPrune_lookup (cache : ChannelCache) (cid : String)
    (msgs : List ConversationMessage) (ttl now : Nat) :
    (cacheStoreAndPrune cache cid msgs ttl now).lookup cid = some ⟨now, msgs⟩ := by
  have hage : ¬(now < now - ttl) := Nat.not_lt.mpr (Nat.sub_le _ _)
  simp only [cacheStoreAndPrune, cacheSet]
  split
  · simp [List.filter, hage, List.lookup]
  · simp [List.lookup]

/-- If `ephemeralFetchConversation` reports an upstream fetch, it returned
the oracle value and stored it at the current instant. -/
theorem ephemeralFetch_miss_shape (cache : ChannelCache) (cid : String)
    (fetched : List ConversationMessage) (ttl now : Nat)
    (h : (ephemeralFetchConversation cache cid fetched ttl now).2.2 = true) :
    ephemeralFetchConversation cache cid fetched ttl now =
      (fetched, cacheStoreAndPrune cache cid fetched ttl now, true) := by
  revert h
  simp only [ephemeralFetchConversation]
  split
  · split
    · simp
    · simp
  · simp

/-- Claim C7: if a conversation-cache fetch for a channel performs the
upstream fetch, then a second fetch within `cacheDurationMs` of it returns
the identical message sequence without an upstream fetch and leaves the
cache unchanged, while a fetch issued once the cache duration has elapsed
performs a fresh upstream fetch and overwrites the channel's entry. -/
theorem c7_cache_hit_and_expiry (cache : ChannelCache) (cid : String)
    (f1 f2 : List ConversationMessage) (ttl t1 t2 : Nat)
    (hfetch : (ephemeralFetchConversation cache cid f1 ttl t1).2.2 = true) :
    (t2 - t1 < ttl →
      ephemeralFetchConversation (ephemeralFetchConversation cache cid f1 ttl t1).2.1
          cid f2 ttl t2 =
        ((ephemeralFetchConversation cache cid f1 ttl t1).1,
          (ephemeralFetchConversation cache cid f1 ttl t1).2.1, false)) ∧
    (ttl ≤ t2 - t1 →
      (ephemeralFetchConversation (ephemeralFetchConversation cache cid f1 ttl t1).2.1
            cid f2 ttl t2).2.2 = true ∧
        (ephemeralFetchConversation (ephemeralFetchConversation cache cid f1 ttl t1).2.1
              cid f2 ttl t2).2.1.lookup cid = some ⟨t2, f2⟩ ∧
        (ephemeralFetchConversation (ephemeralFetchConversation cache cid f1 ttl t1).2.1
              cid f2 ttl t2).1 = f2) := by
  rw [ephemeralFetch_miss_shape cache cid f1 ttl t1 hfetch]
  have hlook := cacheStoreAndPrune_lookup cache cid f1 ttl t1
  constructor
  · intro hfresh
    simp [ephemeralFetchConversation, hlook, hfresh]
  · intro hstale
    have hnot : ¬(t2 - t1 < ttl) := Nat.not_lt.mpr hstale
    simp [ephemeralFetchConversation, hlook, hnot, cacheStoreAndPrune_lookup]

/-- Witness for `c7_cache_hit_and_expiry`: empty cache, first fetch at 0,
second within the 5000 ms window, third after it. -/
theorem c7_cache_hit_and_expiry_witness :
    ((ephemeralFetchConversation [] "chan" [⟨"u", "hi", "t"⟩] 5000 0).2.2 = true) ∧
      ((3 - 0 < 5000 →
        ephemeralFetchConversation (ephemeralFetchConversation [] "chan" [⟨"u", "hi", "t"⟩] 5000 0).2.1
            "chan" [] 5000 3 =
          ((ephemeralFetchConversation [] "chan" [⟨"u", "hi", "t"⟩] 5000 0).1,
            (ephemeralFetchConversation [] "chan" [⟨"u", "hi", "t"⟩] 5000 0).2.1, false)) ∧
      (5000 ≤ 3 - 0 →
        (ephemeralFetchConversation (ephemeralFetchConversation [] "chan" [⟨"u", "hi", "t"⟩] 5000 0).2.1
              "chan" [] 5000 3).2.2 = true ∧
          (ephemeralFetchConversation (ephemeralFetchConversation [] "chan" [⟨"u", "hi", "t"⟩] 5000 0).2.1
                "chan" [] 5000 3).2.1.lookup "chan" = some ⟨3, []⟩ ∧
          (ephemeralFetchConversation (ephemeralFetchConversation [] "chan" [⟨"u", "hi", "t"⟩] 5000 0).2.1
                "chan" [] 5000 3).1 = [])) :=
  ⟨by decide, c7_cache_hit_and_expiry [] "chan" [⟨"u", "hi", "t"⟩] [] 5000 0 3 (by decide)⟩

/-! ## Conversation fetcher (responseOrchestrator.ts `fetchConversationFromDiscord`) -/

/-- Attempt to read a user-mention token at the position just after a
`<` character: `@`, an optional `!`, one or more digits, and `>`
(the regex `<@!?(\d+)>`).  On success, returns the replacement text (the
resolved display name, or the canonicalised raw `<@id>` token when the id
is not in the name map) and the remaining input. -/
def tryMention (lookup : String → Option String) (cs : List Char) :
    Option (List Char × List Char) :=
  match cs with
  | '@' :: rest =>
    let rest1 := match rest with
      | '!' :: r => r
      | _ => rest
    let digits := rest1.takeWhile Char.isDigit
    let rest2 := rest1.dropWhile Char.isDigit
    match digits, rest2 with
    | [], _ => none
    | _, '>' :: rest3 =>
      let id := String.mk digits
      some (((lookup id).getD ("<@" ++ id ++ ">")).data, rest3)
    | _, _ => none
  | _ => none

/-- Fuelled scanner for `text.replace(/<@!?(\d+)>/g, ...)`: at each
position, try to match a mention token and substitute, otherwise advance
one character (as the global regex does).  The fuel argument only ensures
structural recursion; callers pass the input length, which the consumed
amounts never exceed. -/
def replaceMentionsFuel (lookup : String → Option String) : Nat → List Char → List Char
  | 0, cs => cs
  | _ + 1, [] => []
  | fuel + 1, '<' :: rest =>
    match tryMention lookup rest with
    | some (repl, remaining) => repl ++ replaceMentionsFuel lookup fuel remaining
    | none => '<' :: replaceMentionsFuel lookup fuel rest
  | fuel + 1, c :: rest => c :: replaceMentionsFuel lookup fuel rest

/-- `replaceMentions` from `fetchConversationFromDiscord`. -/
def replaceMentions (lookup : String → Option String) (text : String) : String :=
  String.mk (replaceMentionsFuel lookup text.data.length text.data)

/-- `[e.title, e.description].filter(Boolean).join(" ")` for one embed. -/
def embedText (e : Option String × Option String) : String :=
  String.intercalate " " (([e.1, e.2].filterMap id).filter (fun s => s != ""))

/-- The name map built from the distinct author ids of the selected
messages: defined extensionally (an id resolves iff it is among the
authors), with the resolver `names` as the display-name oracle. -/
def authorNameMap (names : String → String) (sorted : List MsgEvent) :
    String → Option String :=
  fun id => if sorted.any (fun m => m.authorId == id) then some (names id) else none

/-- Formatting of one Discord message into a `ConversationMessage`
(timestamp, cached display name with username fallback, mention
substitution, flattened embed text). -/
def formatMessage (nameMap : String → Option String) (m : MsgEvent) : ConversationMessage :=
  { username := (nameMap m.authorId).getD m.authorUsername
    text :=
      replaceMentions nameMap m.content ++
        (if m.embeds.length ≠ 0 then
          " " ++ String.intercalate " " (m.embeds.map embedText)
        else "")
    timestamp := m.createdAtIso }

/-- `fetchConversationFromDiscord` from responseOrchestrator.ts.  The
Discord history fetch is the oracle `fetchedHistory` (used only when
`limit` is non-zero), display-name resolution is the oracle `names`, and
`nowIso` is the timestamp given to the synthetic topic message.  Produces
the oldest-first formatted conversation: sorted history, plus the
triggering message when authored by someone other than this bot, with the
channel topic (when present and non-empty) prepended. -/
def fetchConversationFromDiscord (botId : String) (names : String → String)
    (msg : MsgEvent) (ch : ChannelInfo) (fetchedHistory : List MsgEvent)
    (limit : Nat) (nowIso : String) : List ConversationMessage :=
  let sorted :=
    if limit ≠ 0 then
      fetchedHistory.mergeSort (fun a b => a.createdTimestamp ≤ b.createdTimestamp)
    else []
  let sorted := sorted ++ (if msg.authorId != botId then [msg] else [])
  let nameMap := authorNameMap names sorted
  let messages := sorted.map (formatMessage nameMap)
  match ch.topic with
  | some t => if t != "" then ⟨"Channel Topic", t, nowIso⟩ :: messages else messages
  | none => messages

/-! ## Inference client (llmAPI.ts) -/

/-- The `reply` field of an inference response body: a plain string or a
structured (rich) message payload, the latter kept opaque. -/
inductive ReplyVal where
  | str (s : String)
  | rich (id : Nat)
deriving Repr, DecidableEq

/-- An inference response body: either raw text, or a JSON object with the
optional `success` / `error` / `reply` fields of `LLMResponse`. -/
inductive LLMBody where
  | rawString (s : String)
  | obj (success : Option Bool) (err : Option String) (reply : Option ReplyVal)
deriving Repr, DecidableEq

/-- A reply payload as delivered to Discord: plain content, a rich
payload passed through unmodified, or the undefined passthrough. -/
inductive MsgPayload where
  | content (s : String)
  | rich (id : Nat)
  | undef
deriving Repr, DecidableEq

/-- `LLMResult` from types.ts: success with a reply payload, or
rate-limited.  No other outcome is representable as a value. -/
inductive LLMResult where
  | success (reply : MsgPayload)
  | rate_limited
deriving Repr, DecidableEq

/-- `JSON.stringify(data, null, 2)` for a response body, rendered with the
fields present (whitespace layout abstracted). -/
def stringifyBody : LLMBody → String
  | .rawString s => "\x22" ++ s ++ "\x22"
  | .obj success err reply =>
    let fields :=
      (match success with
        | some b => ["\x22success\x22: " ++ (if b then "true" else "false")]
        | none => []) ++
      (match err with
        | some e => ["\x22error\x22: \x22" ++ e ++ "\x22"]
        | none => []) ++
      (match reply with
        | some (.str s) => ["\x22reply\x22: \x22" ++ s ++ "\x22"]
        | some (.rich i) => ["\x22reply\x22: <object " ++ toString i ++ ">"]
        | none => [])
    "\x7b" ++ String.intercalate ", " fields ++ "\x7d"

/-- `parseLLMResponse` from llmAPI.ts: no `success` flag means the whole
body is the reply (strings used verbatim, objects stringified); `success:
false` throws the upstream error message or a generic one; `success:
true` wraps a string reply as plain content and passes a structured reply
through.  A thrown `Error` is modelled as `Except.error` with its
message. -/
def parseLLMResponse (data : LLMBody) : Except String LLMResult :=
  match data with
  | .rawString s => .ok (.success (.content s))
  | .obj none _ _ => .ok (.success (.content (stringifyBody data)))
  | .obj (some false) err _ => .error (err.getD "API request failed")
  | .obj (some true) _ reply =>
    .ok (.success
      (match reply with
        | some (.str s) => .content s
        | some (.rich i) => .rich i
        | none => .undef))

/-- The request body `callLLM` posts: a `message`-keyed body holding
`conversation[0].text` when the bot's `convLength` is zero (falsy), else a
`conversation`-keyed body, each spread with the configured custom
fields. -/
inductive RequestBody where
  | message (text : String) (customFields : List (String × String))
  | conversation (msgs : List ConversationMessage) (customFields : List (String × String))
deriving Repr, DecidableEq

/-- Request shaping from `callLLM` (`!botConfig.convLength ? ... : ...`).
`conversation[0]` is only evaluated after the non-empty guard of
`callLLM`; the default is irrelevant there. -/
def buildRequestBody (cfg : BotConfig) (conversation : List ConversationMessage) :
    RequestBody :=
  if cfg.convLength == 0 then
    .message ((conversation.headD ⟨"", "", ""⟩).text) cfg.customFields
  else .conversation conversation cfg.customFields

/-- The outcome of the `axios.post` call: an HTTP response with a status
and a parsed body, or a network-level failure with no response. -/
inductive HttpOutcome where
  | response (status : Nat) (body : LLMBody)
  | networkError
deriving Repr, DecidableEq

/-- The message of the generic failure `callLLM` throws from its catch
block. -/
def genericLLMFailure : String := "Failed to get response from LLM"

/-- `callLLM` from llmAPI.ts, with the HTTP exchange as the oracle `out`.
Axios resolves 2xx statuses and rejects the rest with an `AxiosError`
carrying the response.  Errors thrown inside the `try` block (the
empty-conversation guard, the non-200 check, and `parseLLMResponse`) are
not axios errors, so the catch block replaces them with the generic
failure message; for an axios error, 429 returns the rate-limited value,
a truthy `response.data.error` is rethrown, and anything else becomes the
generic failure. -/
def callLLM (cfg : BotConfig) (conversation : List ConversationMessage)
    (out : HttpOutcome) : Except String LLMResult :=
  if conversation.isEmpty then .error genericLLMFailure
  else
    match out with
    | .networkError => .error genericLLMFailure
    | .response status body =>
      if 200 ≤ status ∧ status < 300 then
        if status ≠ 200 then .error genericLLMFailure
        else
          match parseLLMResponse body with
          | .ok r => .ok r
          | .error _ => .error genericLLMFailure
      else
        if status == 429 then .ok .rate_limited
        else
          match body with
          | .obj _ (some e) _ =>
            if e != "" then .error e else .error genericLLMFailure
          | _ => .error genericLLMFailure

/-! ## Claims about the inference client -/

deriving instance DecidableEq for Except

/-- A guild channel exposing the topic "T". -/
def topicChannel : ChannelInfo := { plainGuildChannel with topic := some "T" }

/-- A bot configured with no conversation history (`convLength = 0`). -/
def zeroLenCfg : BotConfig := { dynamicCfg with convLength := 0 }

/-- Claim C1 counterexample: with `convLength = 0` and a channel exposing
topic "T", the request built for the human trigger "hello there" is
`message`-keyed but carries the topic text, not the triggering message's
text, because the synthetic topic message is prepended at index 0. -/
theorem c1_counterexample_topic_displaces_trigger :
    buildRequestBody zeroLenCfg
        (fetchConversationFromDiscord "me" (fun _ => "U") humanMsg topicChannel []
          zeroLenCfg.convLength "now") =
      RequestBody.message "T" [] ∧
    humanMsg.content = "hello there" ∧ ("T" : String) ≠ "hello there" := by
  decide

/-- Claim C1 (amended): with `convLength = 0` and a trigger authored by
someone other than this bot, the request body is always `message`-keyed
(never a `conversation` array) and carries the text of the first message
of the assembled conversation; when the channel exposes no (non-empty)
topic that first message is the formatted triggering message itself. -/
theorem c1_zero_history_message_payload
    (cfg : BotConfig) (botId nowIso : String) (names : String → String)
    (msg : MsgEvent) (ch : ChannelInfo) (history : List MsgEvent)
    (h0 : cfg.convLength = 0) (hother : (msg.authorId == botId) = false) :
    (∃ t, buildRequestBody cfg
        (fetchConversationFromDiscord botId names msg ch history cfg.convLength nowIso) =
          RequestBody.message t cfg.customFields ∧
      (fetchConversationFromDiscord botId names msg ch history cfg.convLength
          nowIso).head?.map ConversationMessage.text = some t) ∧
    ((ch.topic = none ∨ ch.topic = some "") →
      buildRequestBody cfg
          (fetchConversationFromDiscord botId names msg ch history cfg.convLength nowIso) =
        RequestBody.message (formatMessage (authorNameMap names [msg]) msg).text
          cfg.customFields) := by
  have hconv : fetchConversationFromDiscord botId names msg ch history cfg.convLength nowIso
      = (match ch.topic with
        | some t =>
          if t != "" then
            ⟨"Channel Topic", t, nowIso⟩ :: [formatMessage (authorNameMap names [msg]) msg]
          else [formatMessage (authorNameMap names [msg]) msg]
        | none => [formatMessage (authorNameMap names [msg]) msg]) := by
    have hne : msg.authorId ≠ botId := by simpa using hother
    simp [fetchConversationFromDiscord, h0, hne]
  rw [hconv]
  cases hp : ch.topic with
  | none => simp [buildRequestBody, h0]
  | some t =>
    by_cases ht : t = ""
    · simp [buildRequestBody, h0, ht]
    · have ht' : (t != "") = true := by simp [ht]
      refine ⟨⟨t, ?_, ?_⟩, ?_⟩
      · simp [ht', buildRequestBody, h0]
      · simp [ht']
      · rintro (h | h) <;> simp_all

/-- Witness for `c1_zero_history_message_payload` at a topic-less guild
channel and the human trigger. -/
theorem c1_zero_history_message_payload_witness :
    zeroLenCfg.convLength = 0 ∧ ((humanMsg.authorId == "me") = false) ∧
      ((∃ t, buildRequestBody zeroLenCfg
          (fetchConversationFromDiscord "me" (fun _ => "U") humanMsg plainGuildChannel []
            zeroLenCfg.convLength "now") =
            RequestBody.message t zeroLenCfg.customFields ∧
        (fetchConversationFromDiscord "me" (fun _ => "U") humanMsg plainGuildChannel []
            zeroLenCfg.convLength "now").head?.map ConversationMessage.text = some t) ∧
      ((plainGuildChannel.topic = none ∨ plainGuildChannel.topic = some "") →
        buildRequestBody zeroLenCfg
            (fetchConversationFromDiscord "me" (fun _ => "U") humanMsg plainGuildChannel []
              zeroLenCfg.convLength "now") =
          RequestBody.message
            (formatMessage (authorNameMap (fun _ => "U") [humanMsg]) humanMsg).text
            zeroLenCfg.customFields)) :=
  ⟨by decide, by decide,
    c1_zero_history_message_payload zeroLenCfg "me" "now" (fun _ => "U") humanMsg
      plainGuildChannel [] (by decide) (by decide)⟩

/-- Claim C2 counterexample: an HTTP 200 response whose body is
`success: false, error: "UPSTREAM_BOOM"` makes `callLLM` throw the
generic failure message, which does not contain the upstream error
string — the inner throw of `parseLLMResponse` is swallowed by the catch
block (it is not an axios error). -/
theorem c2_counterexample_200_loses_upstream_error :
    callLLM dynamicCfg [⟨"u", "hi", "t"⟩]
        (.response 200 (.obj (some false) (some "UPSTREAM_BOOM") none)) =
      .error genericLLMFailure ∧
    strIncludes genericLLMFailure "UPSTREAM_BOOM" = false := by
  decide

/-- Claim C2 (amended): the upstream error string of a
`success:false, error:"X"` body is surfaced only on non-2xx responses
(other than 429, and only for a non-empty error string), where the thrown
error message is exactly "X"; an HTTP-200 response with `success: false`
always throws the generic failure message instead. -/
theorem c2_upstream_error_only_non_200
    (cfg : BotConfig) (conv : List ConversationMessage) (status : Nat)
    (success : Option Bool) (e : String) (reply : Option ReplyVal)
    (hconv : conv ≠ []) :
    (¬(200 ≤ status ∧ status < 300) → status ≠ 429 → e ≠ "" →
      callLLM cfg conv (.response status (.obj success (some e) reply)) = .error e) ∧
    callLLM cfg conv (.response 200 (.obj (some false) (some e) reply)) =
      .error genericLLMFailure := by
  have hempty : conv.isEmpty = false := by cases conv <;> simp_all
  constructor
  · intro h2xx h429 he
    have h429' : (status == 429) = false := by simp [h429]
    have he' : (e != "") = true := by simp [he]
    simp [callLLM, hempty, h2xx, h429', he']
  · simp [callLLM, hempty, parseLLMResponse]

/-- Witness for `c2_upstream_error_only_non_200` at status 500 and the
error string "UPSTREAM_BOOM". -/
theorem c2_upstream_error_only_non_200_witness :
    ([⟨"u", "hi", "t"⟩] : List ConversationMessage) ≠ [] ∧
      ((¬(200 ≤ 500 ∧ 500 < 300) → 500 ≠ 429 → "UPSTREAM_BOOM" ≠ "" →
        callLLM dynamicCfg [⟨"u", "hi", "t"⟩]
            (.response 500 (.obj (some false) (some "UPSTREAM_BOOM") none)) =
          .error "UPSTREAM_BOOM") ∧
      callLLM dynamicCfg [⟨"u", "hi", "t"⟩]
          (.response 200 (.obj (some false) (some "UPSTREAM_BOOM") none)) =
        .error genericLLMFailure) :=
  ⟨by decide,
    c2_upstream_error_only_non_200 dynamicCfg [⟨"u", "hi", "t"⟩] 500 (some false)
      "UPSTREAM_BOOM" none (by decide)⟩

/-- Claim C6: once a non-empty conversation is posted, an HTTP 429
response always yields the `rate_limited` value (never a thrown error,
whatever the body), while every other failing outcome — any status other
than 200 and 429, or a 200 response whose body has `success: false` — is
a thrown error; rate-limit is thus the only failure representable as a
return value. -/
theorem c6_rate_limited_is_value_other_failures_throw
    (cfg : BotConfig) (conv : List ConversationMessage) (hconv : conv ≠ []) :
    (∀ body, callLLM cfg conv (.response 429 body) = .ok .rate_limited) ∧
    (∀ status body, status ≠ 200 → status ≠ 429 →
      ∃ m, callLLM cfg conv (.response status body) = .error m) ∧
    (∀ err reply, ∃ m,
      callLLM cfg conv (.response 200 (.obj (some false) err reply)) = .error m) := by
  have hempty : conv.isEmpty = false := by cases conv <;> simp_all
  refine ⟨?_, ?_, ?_⟩
  · intro body
    simp [callLLM, hempty]
  · intro status body h200 h429
    have h429' : (status == 429) = false := by simp [h429]
    by_cases h2xx : 200 ≤ status ∧ status < 300
    · exact ⟨genericLLMFailure, by simp [callLLM, hempty, h2xx, h200]⟩
    · cases body with
      | rawString s => exact ⟨genericLLMFailure, by simp [callLLM, hempty, h2xx, h429']⟩
      | obj success err reply =>
        cases err with
        | none => exact ⟨genericLLMFailure, by simp [callLLM, hempty, h2xx, h429']⟩
        | some e =>
          by_cases he : e = ""
          · exact ⟨genericLLMFailure, by simp [callLLM, hempty, h2xx, h429', he]⟩
          · have he' : (e != "") = true := by simp [he]
            exact ⟨e, by simp [callLLM, hempty, h2xx, h429', he']⟩
  · intro err reply
    exact ⟨genericLLMFailure, by simp [callLLM, hempty, parseLLMResponse]⟩

/-- Witness for `c6_rate_limited_is_value_other_failures_throw` on a
one-message conversation, exercising the 429 case concretely. -/
theorem c6_rate_limited_witness :
    ([⟨"u", "hi", "t"⟩] : List ConversationMessage) ≠ [] ∧
      ((∀ body, callLLM dynamicCfg [⟨"u", "hi", "t"⟩] (.response 429 body) =
        .ok .rate_limited) ∧
      (∀ status body, status ≠ 200 → status ≠ 429 →
        ∃ m, callLLM dynamicCfg [⟨"u", "hi", "t"⟩] (.response status body) = .error m) ∧
      (∀ err reply, ∃ m,
        callLLM dynamicCfg [⟨"u", "hi", "t"⟩]
            (.response 200 (.obj (some false) err reply)) = .error m)) :=
  ⟨by decide,
    c6_rate_limited_is_value_other_failures_throw dynamicCfg [⟨"u", "hi", "t"⟩] (by decide)⟩

/-! ## Orchestrator control flow (responseOrchestrator.ts `processConversation`) -/

/-- The exit taken by one run of `processConversation`. -/
inductive ProcExit where
  | notSendable
  | refFailure
  | llmThrow (msg : String)
  | rateLimitedDrop
  | replied
  | sendFailed
deriving Repr, DecidableEq

/-- Observable resource facts of one run: whether the recurring
typing-indicator interval was started and whether `clearInterval` ran
before the handler finished (normally or exceptionally). -/
structure ProcResult where
  exit : ProcExit
  typingStarted : Bool
  typingCleared : Bool
deriving Repr, DecidableEq

/-- Control-flow model of `processConversation`: non-sendable early return;
conversation fetch through the ephemeral cache; `sendTyping` plus
`setInterval` (the timer starts); user-message resolution (for a
bot-authored trigger, the reply-reference / preceding-message search is
the oracle `refResolved`, with `none` for the logged failure return);
session-id construction; `callLLM` with the HTTP oracle `out` (a thrown
error propagates out of the function); the rate-limited silent drop; and
the reply/send block (`sendOk` the oracle for its success) whose `finally`
is the only place `clearInterval` runs. -/
def processConversation (cfg : BotConfig) (botId : String) (msg : MsgEvent)
    (ch : ChannelInfo) (cache : ChannelCache) (now : Nat)
    (fetched : List ConversationMessage) (refResolved : Option MsgEvent)
    (out : HttpOutcome) (sendOk : Bool) : ProcResult × ChannelCache :=
  if !ch.isSendable then (⟨.notSendable, false, false⟩, cache)
  else
    let fetchResult := ephemeralFetchConversation cache ch.id fetched 5000 now
    let conversation := fetchResult.1
    let cache' := fetchResult.2.1
    -- `await channel.sendTyping(); const typingInterval = setInterval(...)`
    let userMessage : Option MsgEvent :=
      if msg.authorId != botId then some msg else refResolved
    match userMessage with
    | none => (⟨.refFailure, true, false⟩, cache')
    | some _ =>
      match callLLM cfg conversation out with
      | .error e => (⟨.llmThrow e, true, false⟩, cache')
      | .ok .rate_limited => (⟨.rateLimitedDrop, true, false⟩, cache')
      | .ok (.success _) =>
        if sendOk then (⟨.replied, true, true⟩, cache')
        else (⟨.sendFailed, true, true⟩, cache')

/-- Claim C3 evidence: the typing-indicator interval is cancelled only in
the `finally` of the send block, so the rate-limited drop, a thrown
inference error, and the reply-reference failure all return with the
timer started and never cleared; only the send paths clear it. -/
theorem c3_typing_timer_leaks_on_early_exits :
    ((processConversation dynamicCfg "me" humanMsg plainGuildChannel [] 0
        [⟨"u", "hi", "t"⟩] none (.response 429 (.rawString "")) true).1 =
      ⟨.rateLimitedDrop, true, false⟩) ∧
    ((processConversation dynamicCfg "me" humanMsg plainGuildChannel [] 0
        [⟨"u", "hi", "t"⟩] none (.response 500 (.rawString "")) true).1 =
      ⟨.llmThrow genericLLMFailure, true, false⟩) ∧
    ((processConversation dynamicCfg "me" (botMsg "me") plainGuildChannel [] 0
        [⟨"u", "hi", "t"⟩] none (.response 200 (.rawString "ok")) true).1 =
      ⟨.refFailure, true, false⟩) ∧
    ((processConversation dynamicCfg "me" humanMsg plainGuildChannel [] 0
        [⟨"u", "hi", "t"⟩] none (.response 200 (.rawString "ok")) true).1 =
      ⟨.replied, true, true⟩) ∧
    ((processConversation dynamicCfg "me" humanMsg plainGuildChannel [] 0
        [⟨"u", "hi", "t"⟩] none (.response 200 (.rawString "ok")) false).1 =
      ⟨.sendFailed, true, true⟩) := by
  decide

/-! ## Session identity (responseOrchestrator.ts `processConversation`,
session-id construction) -/

/-- The channel id recorded in the session data: the parent channel for a
thread, else the channel itself. -/
def sessionChannelId (ch : ChannelInfo) : String :=
  if ch.isThread then ch.parentId else ch.id

/-- The standard base64 alphabet. -/
def b64Alphabet : List Char :=
  "ABCDEFGHIJKLMNOPQRSTUVWXYZabcdefghijklmnopqrstuvwxyz0123456789+/".data

/-- The base64 digit for a sextet value. -/
def sextetChar (n : Nat) : Char := b64Alphabet.getD n 'A'

/-- Position of a character in a list, searching from index `i`. -/
def indexOfFrom (c : Char) : List Char → Nat → Option Nat
  | [], _ => none
  | x :: xs, i => if x == c then some i else indexOfFrom c xs (i + 1)

/-- The sextet value of a base64 digit. -/
def b64CharVal (c : Char) : Option Nat := indexOfFrom c b64Alphabet 0

/-- Base64 encoding of a byte sequence (`Buffer.toString('base64')`),
including padding. -/
def b64EncodeBytes : List Nat → List Char
  | [] => []
  | [b1] => [sextetChar (b1 / 4), sextetChar (b1 % 4 * 16), '=', '=']
  | [b1, b2] =>
    [sextetChar (b1 / 4), sextetChar (b1 % 4 * 16 + b2 / 16),
      sextetChar (b2 % 16 * 4), '=']
  | b1 :: b2 :: b3 :: rest =>
    sextetChar (b1 / 4) :: sextetChar (b1 % 4 * 16 + b2 / 16) ::
      sextetChar (b2 % 16 * 4 + b3 / 64) :: sextetChar (b3 % 64) ::
        b64EncodeBytes rest

/-- Base64 decoding of a character sequence into bytes; `none` on
malformed input. -/
def b64DecodeBytes : List Char → Option (List Nat)
  | [] => some []
  | c1 :: c2 :: c3 :: c4 :: rest =>
    match b64CharVal c1, b64CharVal c2 with
    | some s1, some s2 =>
      if c3 == '=' then
        if c4 == '=' && rest.isEmpty then some [s1 * 4 + s2 / 16] else none
      else
        match b64CharVal c3 with
        | some s3 =>
          if c4 == '=' then
            if rest.isEmpty then some [s1 * 4 + s2 / 16, s2 % 16 * 16 + s3 / 4]
            else none
          else
            match b64CharVal c4 with
            | some s4 =>
              (b64DecodeBytes rest).map
                (fun bs =>
                  (s1 * 4 + s2 / 16) :: (s2 % 16 * 16 + s3 / 4) ::
                    (s3 % 4 * 64 + s4) :: bs)
            | none => none
        | none => none
    | _, _ => none
  | _ => none

/-- The pieces of `JSON.stringify({botId, botName, userId, channelId})`
around the four field values. -/
def sessLit1 : String := "\x7b\x22botId\x22:\x22"

/-- Separator between the botId and botName values. -/
def sessLit2 : String := "\x22,\x22botName\x22:\x22"

/-- Separator between the botName and userId values. -/
def sessLit3 : String := "\x22,\x22userId\x22:\x22"

/-- Separator between the userId and channelId values. -/
def sessLit4 : String := "\x22,\x22channelId\x22:\x22"

/-- Closing of the serialized session record. -/
def sessLit5 : String := "\x22\x7d"

/-- `JSON.stringify(sessionData)` for field values that serialize
verbatim (printable ASCII free of `"` and backslash). -/
def jsonOfSession (botId botName userId channelId : String) : String :=
  sessLit1 ++ botId ++ sessLit2 ++ botName ++ sessLit3 ++ userId ++
    sessLit4 ++ channelId ++ sessLit5

/-- The session id built in `processConversation`:
`Buffer.from(JSON.stringify(sessionData)).toString('base64')`.  A string's
UTF-8 bytes coincide with its character codes on the ASCII inputs the
round-trip theorem quantifies over. -/
def buildSessionId (botId botName userId channelId : String) : String :=
  String.mk (b64EncodeBytes
    ((jsonOfSession botId botName userId channelId).data.map Char.toNat))

/-- Consume an expected literal prefix. -/
def dropLit (lit cs : List Char) : Option (List Char) :=
  if lit.isPrefixOf cs then some (cs.drop lit.length) else none

/-- A character other than the string-field delimiter. -/
def notQuote (c : Char) : Bool := c != '"'

/-- Modelled from the spec: the decoder applied by the external inference
endpoint to a session id — parse the JSON record and project the `botId`,
`userId` and `channelId` fields (the `botName` enrichment is skipped).
This parser handles exactly the serialized records `jsonOfSession`
produces. -/
def parseSessionJson (cs : List Char) : Option (String × String × String) := do
  let cs1 ← dropLit sessLit1.data cs
  let botId := cs1.takeWhile notQuote
  let cs2 := cs1.dropWhile notQuote
  let cs3 ← dropLit sessLit2.data cs2
  let cs4 := cs3.dropWhile notQuote
  let cs5 ← dropLit sessLit3.data cs4
  let userId := cs5.takeWhile notQuote
  let cs6 := cs5.dropWhile notQuote
  let cs7 ← dropLit sessLit4.data cs6
  let channelId := cs7.takeWhile notQuote
  let cs8 := cs7.dropWhile notQuote
  let cs9 ← dropLit sessLit5.data cs8
  if cs9.isEmpty then some (String.mk botId, String.mk userId, String.mk channelId)
  else none

/-- Modelled from the spec: decoding a session id — base64 decode, then
parse the JSON record. -/
def decodeSessionId (s : String) : Option (String × String × String) :=
  (b64DecodeBytes s.data).bind (fun bs => parseSessionJson (bs.map Char.ofNat))

/-- A string that `JSON.stringify` serializes verbatim and whose UTF-8
bytes are its character codes: printable ASCII without `"` or `\`. -/
def validSessionStr (s : String) : Bool :=
  s.data.all (fun c => 32 ≤ c.toNat && c.toNat < 128 && c != '"' && c != '\\')

/-! ## Session-id round-trip lemmas -/

/-- Decoding a base64 digit produced by `sextetChar` recovers the sextet. -/
theorem b64CharVal_sextetChar : ∀ n, n < 64 → b64CharVal (sextetChar n) = some n := by
  decide

/-- Base64 digits are never the padding character. -/
theorem sextetChar_ne_pad : ∀ n, n < 64 → (sextetChar n == '=') = false := by
  decide

/-- Base64 decoding inverts base64 encoding on byte sequences. -/
theorem b64_decode_encode : ∀ (bs : List Nat), (∀ b ∈ bs, b < 256) →
    b64DecodeBytes (b64EncodeBytes bs) = some bs
  | [], _ => rfl
  | [b1], h => by
    have hb1 : b1 < 256 := h b1 (by simp)
    have k1 := b64CharVal_sextetChar (b1 / 4) (by omega)
    have k2 := b64CharVal_sextetChar (b1 % 4 * 16) (by omega)
    simp [b64EncodeBytes, b64DecodeBytes, k1, k2]
    omega
  | [b1, b2], h => by
    have hb1 : b1 < 256 := h b1 (by simp)
    have hb2 : b2 < 256 := h b2 (by simp)
    have k1 := b64CharVal_sextetChar (b1 / 4) (by omega)
    have k2 := b64CharVal_sextetChar (b1 % 4 * 16 + b2 / 16) (by omega)
    have k3 := b64CharVal_sextetChar (b2 % 16 * 4) (by omega)
    have p3 := sextetChar_ne_pad (b2 % 16 * 4) (by omega)
    simp [b64EncodeBytes, b64DecodeBytes, k1, k2, k3, p3]
    constructor <;> omega
  | b1 :: b2 :: b3 :: b4 :: rest, h => by
    have hb1 : b1 < 256 := h b1 (by simp)
    have hb2 : b2 < 256 := h b2 (by simp)
    have hb3 : b3 < 256 := h b3 (by simp)
    have ih := b64_decode_encode (b4 :: rest) (fun b hb => h b (by simp [hb]))
    have k1 := b64CharVal_sextetChar (b1 / 4) (by omega)
    have k2 := b64CharVal_sextetChar (b1 % 4 * 16 + b2 / 16) (by omega)
    have k3 := b64CharVal_sextetChar (b2 % 16 * 4 + b3 / 64) (by omega)
    have k4 := b64CharVal_sextetChar (b3 % 64) (by omega)
    have p3 := sextetChar_ne_pad (b2 % 16 * 4 + b3 / 64) (by omega)
    have p4 := sextetChar_ne_pad (b3 % 64) (by omega)
    simp [b64EncodeBytes, b64DecodeBytes, k1, k2, k3, k4, p3, p4, ih]
    refine ⟨by omega, by omega, by omega⟩
  | [b1, b2, b3], h => by
    have hb1 : b1 < 256 := h b1 (by simp)
    have hb2 : b2 < 256 := h b2 (by simp)
    have hb3 : b3 < 256 := h b3 (by simp)
    have k1 := b64CharVal_sextetChar (b1 / 4) (by omega)
    have k2 := b64CharVal_sextetChar (b1 % 4 * 16 + b2 / 16) (by omega)
    have k3 := b64CharVal_sextetChar (b2 % 16 * 4 + b3 / 64) (by omega)
    have k4 := b64CharVal_sextetChar (b3 % 64) (by omega)
    have p3 := sextetChar_ne_pad (b2 % 16 * 4 + b3 / 64) (by omega)
    have p4 := sextetChar_ne_pad (b3 % 64) (by omega)
    simp [b64EncodeBytes, b64DecodeBytes, k1, k2, k3, k4, p3, p4]
    refine ⟨by omega, by omega, by omega⟩

/-- `Char.ofNat` inverts `Char.toNat` on ASCII codes. -/
theorem char_ofNat_toNat (c : Char) (h : c.toNat < 128) : Char.ofNat c.toNat = c := by
  have hv : c.toNat.isValidChar := Or.inl (by omega)
  simp only [Char.ofNat, hv, dif_pos]
  rcases c with ⟨⟨⟨v, hlt⟩⟩, hvalid⟩
  rfl

/-- Round trip of character codes for ASCII character lists. -/
theorem map_ofNat_toNat (l : List Char) (h : ∀ c ∈ l, c.toNat < 128) :
    (l.map Char.toNat).map Char.ofNat = l := by
  induction l with
  | nil => rfl
  | cons c cs ih =>
    simp [char_ofNat_toNat c (h c (by simp)), ih (fun x hx => h x (by simp [hx]))]

/-- Dropping an expected literal from input that starts with it. -/
theorem dropLit_append (lit rest : List Char) : dropLit lit (lit ++ rest) = some rest := by
  simp [dropLit, List.isPrefixOf_iff_prefix]

/-- `takeWhile` reads a quote-free field up to its closing quote. -/
theorem takeWhile_field (v rest : List Char) (hv : ∀ c ∈ v, c ≠ '"') :
    (v ++ '"' :: rest).takeWhile notQuote = v := by
  induction v with
  | nil => simp [List.takeWhile, notQuote]
  | cons c cs ih =>
    have hc : (notQuote c) = true := by simp [notQuote, hv c (by simp)]
    simp [List.takeWhile, hc, ih (fun x hx => hv x (by simp [hx]))]

/-- `dropWhile` stops a quote-free field at its closing quote. -/
theorem dropWhile_field (v rest : List Char) (hv : ∀ c ∈ v, c ≠ '"') :
    (v ++ '"' :: rest).dropWhile notQuote = '"' :: rest := by
  induction v with
  | nil => simp [List.dropWhile, notQuote]
  | cons c cs ih =>
    have hc : (notQuote c) = true := by simp [notQuote, hv c (by simp)]
    simp [List.dropWhile, hc, ih (fun x hx => hv x (by simp [hx]))]

/-- `sessLit2` consumed from a quote-headed remainder. -/
theorem dropLit2 (rest : List Char) :
    dropLit sessLit2.data
        ('"' :: ([',', '"', 'b', 'o', 't', 'N', 'a', 'm', 'e', '"', ':', '"'] ++ rest)) =
      some rest :=
  dropLit_append sessLit2.data rest

/-- `sessLit3` consumed from a quote-headed remainder. -/
theorem dropLit3 (rest : List Char) :
    dropLit sessLit3.data
        ('"' :: ([',', '"', 'u', 's', 'e', 'r', 'I', 'd', '"', ':', '"'] ++ rest)) =
      some rest :=
  dropLit_append sessLit3.data rest

/-- `sessLit4` consumed from a quote-headed remainder. -/
theorem dropLit4 (rest : List Char) :
    dropLit sessLit4.data
        ('"' :: ([',', '"', 'c', 'h', 'a', 'n', 'n', 'e', 'l', 'I', 'd', '"', ':', '"'] ++ rest)) =
      some rest :=
  dropLit_append sessLit4.data rest

/-- The closing literal consumed exactly. -/
theorem dropLit5Exact : dropLit sessLit5.data ['"', '}'] = some [] := rfl

/-- Parsing the serialized session record recovers the three projected
fields, for quote-free field values. -/
theorem parseSessionJson_json (b n u c : String)
    (hb : ∀ ch ∈ b.data, ch ≠ '"') (hn : ∀ ch ∈ n.data, ch ≠ '"')
    (hu : ∀ ch ∈ u.data, ch ≠ '"') (hc : ∀ ch ∈ c.data, ch ≠ '"') :
    parseSessionJson (jsonOfSession b n u c).data = some (b, u, c) := by
  have hl2 : sessLit2.data = '"' :: ",\x22botName\x22:\x22".data := rfl
  have hl3 : sessLit3.data = '"' :: ",\x22userId\x22:\x22".data := rfl
  have hl4 : sessLit4.data = '"' :: ",\x22channelId\x22:\x22".data := rfl
  have hl5 : sessLit5.data = '"' :: "\x7d".data := rfl
  have hdata : (jsonOfSession b n u c).data =
      sessLit1.data ++ (b.data ++ ('"' :: (",\x22botName\x22:\x22".data ++ (n.data ++
        ('"' :: (",\x22userId\x22:\x22".data ++ (u.data ++ ('"' ::
          (",\x22channelId\x22:\x22".data ++ (c.data ++ ('"' :: "\x7d".data))))))))))) := by
    conv_lhs => rw [jsonOfSession]
    simp only [String.data_append, List.append_assoc, hl2, hl3, hl4, hl5, List.cons_append]
  rw [parseSessionJson, hdata]
  simp only [Option.bind_eq_bind, Option.some_bind, dropLit_append,
    takeWhile_field _ _ hb, dropWhile_field _ _ hb,
    dropLit2, dropLit3, dropLit4,
    takeWhile_field _ _ hn, dropWhile_field _ _ hn,
    takeWhile_field _ _ hu, dropWhile_field _ _ hu,
    takeWhile_field _ _ hc, dropWhile_field _ _ hc,
    dropLit5Exact, List.isEmpty]
  rfl

/-- Valid session strings are ASCII. -/
theorem validSessionStr_ascii (s : String) (h : validSessionStr s = true) :
    ∀ c ∈ s.data, c.toNat < 128 := by
  simp only [validSessionStr, List.all_eq_true, Bool.and_eq_true, decide_eq_true_eq,
    bne_iff_ne] at h
  intro c hc
  exact (h c hc).1.1.2

/-- Valid session strings contain no double quote. -/
theorem validSessionStr_noQuote (s : String) (h : validSessionStr s = true) :
    ∀ c ∈ s.data, c ≠ '"' := by
  simp only [validSessionStr, List.all_eq_true, Bool.and_eq_true, decide_eq_true_eq,
    bne_iff_ne] at h
  intro c hc
  exact (h c hc).1.2

/-- The serialized session record is ASCII when its fields are. -/
theorem jsonOfSession_ascii (b n u c : String)
    (hb : ∀ ch ∈ b.data, ch.toNat < 128) (hn : ∀ ch ∈ n.data, ch.toNat < 128)
    (hu : ∀ ch ∈ u.data, ch.toNat < 128) (hc : ∀ ch ∈ c.data, ch.toNat < 128) :
    ∀ ch ∈ (jsonOfSession b n u c).data, ch.toNat < 128 := by
  have l1 : ∀ ch ∈ sessLit1.data, ch.toNat < 128 := by decide
  have l2 : ∀ ch ∈ sessLit2.data, ch.toNat < 128 := by decide
  have l3 : ∀ ch ∈ sessLit3.data, ch.toNat < 128 := by decide
  have l4 : ∀ ch ∈ sessLit4.data, ch.toNat < 128 := by decide
  have l5 : ∀ ch ∈ sessLit5.data, ch.toNat < 128 := by decide
  intro ch hch
  simp only [jsonOfSession, String.data_append, List.append_assoc, List.mem_append] at hch
  rcases hch with h | h | h | h | h | h | h | h | h
  · exact l1 ch h
  · exact hb ch h
  · exact l2 ch h
  · exact hn ch h
  · exact l3 ch h
  · exact hu ch h
  · exact l4 ch h
  · exact hc ch h
  · exact l5 ch h

/-- Claim C9: decoding the session id built from (botId, botName, userId,
channelId-of-the-context) recovers exactly the botId, userId and
channelId it was built from (the botName enrichment is not recovered),
for all valid field values (printable ASCII without `"` or `\`, which
serialize verbatim); and for a thread context the channel id recorded —
and hence recovered — is the parent channel's id. -/
theorem c9_session_id_roundtrip (botId botName userId : String) (ch : ChannelInfo)
    (h1 : validSessionStr botId = true) (h2 : validSessionStr botName = true)
    (h3 : validSessionStr userId = true)
    (h4 : validSessionStr (sessionChannelId ch) = true) :
    decodeSessionId (buildSessionId botId botName userId (sessionChannelId ch)) =
      some (botId, userId, sessionChannelId ch) ∧
    (ch.isThread = true → sessionChannelId ch = ch.parentId) := by
  constructor
  · have hascii : ∀ c ∈ (jsonOfSession botId botName userId (sessionChannelId ch)).data,
        c.toNat < 128 :=
      jsonOfSession_ascii _ _ _ _ (validSessionStr_ascii _ h1) (validSessionStr_ascii _ h2)
        (validSessionStr_ascii _ h3) (validSessionStr_ascii _ h4)
    have hbytes : ∀ b ∈ (jsonOfSession botId botName userId
        (sessionChannelId ch)).data.map Char.toNat, b < 256 := by
      intro b hb
      rcases List.mem_map.mp hb with ⟨c, hc, rfl⟩
      have := hascii c hc
      omega
    show (b64DecodeBytes (String.mk (b64EncodeBytes _)).data).bind _ = _
    rw [show ∀ l : List Char, (String.mk l).data = l from fun _ => rfl]
    rw [b64_decode_encode _ hbytes]
    simp only [Option.some_bind]
    rw [map_ofNat_toNat _ hascii]
    exact parseSessionJson_json _ _ _ _ (validSessionStr_noQuote _ h1)
      (validSessionStr_noQuote _ h2) (validSessionStr_noQuote _ h3)
      (validSessionStr_noQuote _ h4)
  · intro h
    simp [sessionChannelId, h]

/-- A thread channel whose parent is "parent9". -/
def threadChannel : ChannelInfo :=
  { id := "thread9"
    isDM := false
    isThread := true
    parentId := "parent9"
    topic := none
    perms := some ⟨true, true, true, true⟩
    sendable := true
    joined := true
    isSendable := true
    guildId := some "guild" }

/-- Witness for `c9_session_id_roundtrip` on concrete ids and a thread
context (so the recovered channel id is the parent's). -/
theorem c9_session_id_roundtrip_witness :
    validSessionStr "bot42" = true ∧ validSessionStr "My Bot" = true ∧
      validSessionStr "user7" = true ∧
      validSessionStr (sessionChannelId threadChannel) = true ∧
      (decodeSessionId (buildSessionId "bot42" "My Bot" "user7"
          (sessionChannelId threadChannel)) =
        some ("bot42", "user7", sessionChannelId threadChannel) ∧
      (threadChannel.isThread = true → sessionChannelId threadChannel =
        threadChannel.parentId)) :=
  ⟨by decide, by decide, by decide, by decide,
    c9_session_id_roundtrip "bot42" "My Bot" "user7" threadChannel
      (by decide) (by decide) (by decide) (by decide)⟩

/-- A bot left at the default mention-only behaviour (`respondTo` unset). -/
def mentionOnlyCfg : BotConfig := { dynamicCfg with respondTo := none }

/-- A human guild message whose text contains the bot's display name. -/
def nameDroppingMsg : MsgEvent := { humanMsg with content := "hey Bot, hello" }

/-- Witness for `c8_no_response_without_name_setting`: the display name
"Bot" appears in the text, yet with `respondTo` unset the bot stays
silent. -/
theorem c8_no_response_witness :
    mentionOnlyCfg.respondTo = none ∧ nameDroppingMsg.mentionUsers = [] ∧
      nameDroppingMsg.mentionEveryone = false ∧ nameDroppingMsg.mentionRoleCount = 0 ∧
      nameDroppingMsg.mentionChannelCount = 0 ∧ plainGuildChannel.isDM = false ∧
      plainGuildChannel.isThread = false ∧
      strIncludes nameDroppingMsg.content "Bot" = true ∧
      (shouldRespond mentionOnlyCfg "me" "Bot" nameDroppingMsg plainGuildChannel [] 50).1 =
        false :=
  ⟨by decide, by decide, by decide, by decide, by decide, by decide, by decide, by decide,
    c8_no_response_without_name_setting mentionOnlyCfg "me" "Bot" nameDroppingMsg
      plainGuildChannel [] 50 (by decide) (by decide) (by decide) (by decide) (by decide)
      (by decide) (by decide)⟩
